import Mathlib

/-!
Shallow embedding of the mindSweep-rideBooking core (src/app/models.py and
src/app/services.py; src/app.py contains a near-identical copy of the same
logic).  Python floats are idealised as real numbers (`ℝ`) in the fare
pipeline and as rationals (`ℚ`) where the surge policy is concerned; every
random draw (`random.uniform`, `random.randint`, `uuid4`, `datetime.now`) is
passed in explicitly as an oracle argument, so each operation is a pure
function of its inputs and its draws.  The mutable `self.rides` dict becomes
an association list threaded through the operations; a Python method that
mutates a ride in place returns the updated registry instead.
-/

/-- `RideStatus` from src/app/models.py. -/
inductive RideStatus where
  | searching
  | accepted
  | arriving
  | in_progress
  | completed
  | cancelled
deriving DecidableEq, Repr

/-- `CabType` enumeration from src/app/models.py. -/
inductive CabType where
  | mini
  | sedan
  | suv
  | luxury
deriving DecidableEq, Repr

/-- The constant table carried by each `CabType` value in src/app/models.py. -/
structure CabRates where
  name : String
  base_fare : ℝ
  per_km : ℝ
  per_min : ℝ
  capacity : ℕ

/-- The per-class constants of `CabType` (src/app/models.py lines 25-28). -/
noncomputable def CabType.rates : CabType → CabRates
  | .mini => ⟨"Mini", 50, 12, 2, 4⟩
  | .sedan => ⟨"Sedan", 80, 15, 2.5, 4⟩
  | .suv => ⟨"SUV", 120, 20, 3, 6⟩
  | .luxury => ⟨"Luxury", 200, 30, 5, 4⟩

/-- `Location` from src/app/models.py. -/
structure Location where
  latitude : ℝ
  longitude : ℝ
  address : String

/-- `Location.distance_to` (src/app/models.py lines 38-42):
`((lat_diff ** 2 + lng_diff ** 2) ** 0.5) * 111` with absolute differences. -/
noncomputable def Location.distance_to (p other : Location) : ℝ :=
  Real.sqrt (|p.latitude - other.latitude| ^ 2 + |p.longitude - other.longitude| ^ 2) * 111

/-- `Driver` from src/app/models.py.  `Driver.generate_random` draws every
field from a random source; operations below receive the generated driver as
an oracle argument. -/
structure Driver where
  id : String
  name : String
  phone : String
  rating : ℝ
  total_trips : ℕ
  vehicle_number : String
  vehicle_model : String
  vehicle_color : String
  current_location : Location

/-- `Fare` from src/app/models.py. -/
structure Fare where
  base_fare : ℝ
  distance_fare : ℝ
  time_fare : ℝ
  surge_multiplier : ℝ
  total : ℝ

/-- Python `round(x, 2)` on the fare total, idealised over `ℝ`. -/
noncomputable def round2 (x : ℝ) : ℝ := (round (x * 100) : ℤ) / 100

/-- `Fare.calculate_total` (src/app/models.py lines 101-105): sets
`total = round((base + distance + time) * surge, 2)`. -/
noncomputable def Fare.calculate_total (f : Fare) : Fare :=
  { f with total := round2 ((f.base_fare + f.distance_fare + f.time_fare) * f.surge_multiplier) }

/-- `Ride` from src/app/models.py.  Timestamps are abstract clock readings
(`datetime.now()` oracle values), modelled as naturals. -/
structure Ride where
  ride_id : String
  cab_type : CabType
  pickup : Location
  dropoff : Location
  status : RideStatus
  driver : Option Driver
  fare : Option Fare
  created_at : ℕ
  accepted_at : Option ℕ
  started_at : Option ℕ
  completed_at : Option ℕ
  eta_minutes : ℕ
  distance_km : ℝ
  duration_minutes : ℤ

/-- The `self.rides` dict of `CabBookingService`, as an association list. -/
abbrev Registry := List (String × Ride)

/-- Dict lookup `self.rides.get(ride_id)`. -/
def regFind? (reg : Registry) (rid : String) : Option Ride :=
  (List.find? (fun e => e.1 == rid) reg).map (·.2)

/-- Dict assignment `self.rides[k] = v` (replace if present, append if not);
in-place mutation of a found ride is the replace case. -/
def regSet (reg : Registry) (k : String) (v : Ride) : Registry :=
  if reg.any (fun e => e.1 == k) then
    reg.map (fun e => if e.1 == k then (k, v) else e)
  else
    reg ++ [(k, v)]

/-- The key set of the registry. -/
def regKeys (reg : Registry) : List String := reg.map (·.1)

/-- The only failure the service raises: `ValueError("Ride not found")`. -/
inductive Err where
  | notFound
deriving DecidableEq, Repr

/-- Model of `random.uniform(lo, hi)`: the draw is `t ∈ [0,1]`. -/
def uniform (lo hi t : ℚ) : ℚ := lo + (hi - lo) * t

/-- Model of `random.randint(lo, hi)` (inclusive): the draw is any natural. -/
def randint (lo hi draw : ℕ) : ℕ := lo + draw % (hi + 1 - lo)

/-- Python `round(x, 1)` over `ℚ`, used by the surge policy. -/
def round1 (x : ℚ) : ℚ := (round (x * 10) : ℤ) / 10

/-- `CabBookingService._get_surge_multiplier` (src/app/services.py lines
160-169): peak hours 8-10 and 17-20 draw from [1.2, 2.0], otherwise from
[1.0, 1.3], rounded to one decimal.  The location argument is unused by the
source; `hour` is the `datetime.now().hour` oracle, `t` the uniform draw. -/
def get_surge_multiplier (_location : Location) (hour : ℕ) (t : ℚ) : ℚ :=
  if (8 ≤ hour ∧ hour ≤ 10) ∨ (17 ≤ hour ∧ hour ≤ 20) then
    round1 (uniform 1.2 2.0 t)
  else
    round1 (uniform 1.0 1.3 t)

/-- `CabBookingService.get_fare_estimate` (src/app/services.py lines 45-67).
`s` is the surge multiplier drawn by `_get_surge_multiplier`. -/
noncomputable def get_fare_estimate (pickup dropoff : Location) (cab_type : CabType) (s : ℝ) :
    Fare :=
  let distance := pickup.distance_to dropoff
  let duration := distance / 30 * 60
  let cab_rates := cab_type.rates
  Fare.calculate_total
    { base_fare := cab_rates.base_fare
      distance_fare := distance * cab_rates.per_km
      time_fare := duration * cab_rates.per_min
      surge_multiplier := s
      total := 0 }

/-- `CabBookingService.book_ride` (src/app/services.py lines 69-94).
`ride_id` is the uuid oracle, `now` the clock oracle, `s` the surge draw. -/
noncomputable def book_ride (reg : Registry) (pickup dropoff : Location) (cab_type : CabType)
    (s : ℝ) (ride_id : String) (now : ℕ) : Ride × Registry :=
  let distance := pickup.distance_to dropoff
  let duration : ℤ := ⌊distance / 30 * 60⌋
  let ride : Ride :=
    { ride_id := ride_id
      cab_type := cab_type
      pickup := pickup
      dropoff := dropoff
      status := .searching
      driver := none
      fare := some (get_fare_estimate pickup dropoff cab_type s)
      created_at := now
      accepted_at := none
      started_at := none
      completed_at := none
      eta_minutes := 0
      distance_km := round2 distance
      duration_minutes := duration }
  (ride, regSet reg ride_id ride)

/-- `CabBookingService.assign_driver` (src/app/services.py lines 96-109):
no status check at all — it unconditionally overwrites driver, status,
accepted_at and eta.  `drv` is the `Driver.generate_random` oracle, `now`
the clock, `etaDraw` the `random.randint(3, 10)` draw. -/
def assign_driver (reg : Registry) (ride_id : String) (drv : Driver) (now : ℕ) (etaDraw : ℕ) :
    Except Err Driver × Registry :=
  match regFind? reg ride_id with
  | none => (.error .notFound, reg)
  | some ride =>
      let ride' :=
        { ride with
          driver := some drv
          status := .accepted
          accepted_at := some now
          eta_minutes := randint 3 10 etaDraw }
      (.ok drv, regSet reg ride_id ride')

/-- `CabBookingService.get_ride` (src/app/services.py lines 111-116). -/
def get_ride (reg : Registry) (ride_id : String) : Except Err Ride :=
  match regFind? reg ride_id with
  | none => .error .notFound
  | some ride => .ok ride

/-- `CabBookingService.update_ride_status` (src/app/services.py lines
118-131): sets any requested status without validation, stamping
`started_at` on IN_PROGRESS and `completed_at` on COMPLETED. -/
def update_ride_status (reg : Registry) (ride_id : String) (new_status : RideStatus) (now : ℕ) :
    Except Err Ride × Registry :=
  match regFind? reg ride_id with
  | none => (.error .notFound, reg)
  | some ride =>
      let r1 := { ride with status := new_status }
      let r2 :=
        if new_status = RideStatus.in_progress then { r1 with started_at := some now }
        else if new_status = RideStatus.completed then { r1 with completed_at := some now }
        else r1
      (.ok r2, regSet reg ride_id r2)

/-- The dict returned by `cancel_ride`. -/
structure CancelResult where
  ride_id : String
  status : String
  reason : String
  cancellation_fee : ℕ
deriving DecidableEq, Repr

/-- `CabBookingService.cancel_ride` (src/app/services.py lines 133-151).
The source mutates `ride.status` to CANCELLED first and only then tests
`ride.status in [ACCEPTED, ARRIVING]`, so the test reads the overwritten
status, never the pre-transition one. -/
def cancel_ride (reg : Registry) (ride_id : String) (reason : String) :
    Except Err CancelResult × Registry :=
  match regFind? reg ride_id with
  | none => (.error .notFound, reg)
  | some ride =>
      let ride' := { ride with status := RideStatus.cancelled }
      let fee : ℕ :=
        if ride'.status = RideStatus.accepted ∨ ride'.status = RideStatus.arriving then 50 else 0
      (.ok { ride_id := ride_id, status := "cancelled", reason := reason,
             cancellation_fee := fee },
       regSet reg ride_id ride')

/-- `CabBookingService.get_ride_history` (src/app/services.py lines 153-158):
all stored rides whose status is COMPLETED, in registry order. -/
def get_ride_history (reg : Registry) : List Ride :=
  (reg.map (·.2)).filter (fun ride => ride.status == RideStatus.completed)

/-!  Registry lemmas: how `regFind?`, `regSet` and `regKeys` interact. -/

theorem find?_map_replace_self (k : String) (v : Ride) :
    ∀ (l : List (String × Ride)), l.any (fun e => e.1 == k) = true →
      List.find? (fun e => e.1 == k) (l.map (fun e => if e.1 == k then (k, v) else e)) =
        some (k, v) := by
  intro l
  induction l with
  | nil => intro h; simp at h
  | cons e t ih =>
    intro hany
    rw [List.any_cons, Bool.or_eq_true] at hany
    simp only [List.map_cons]
    by_cases he : e.1 = k
    · rw [if_pos (by simpa using he)]
      exact List.find?_cons_of_pos _ (by simp)
    · rw [if_neg (by simpa using he)]
      rw [List.find?_cons_of_neg _ (by simpa using he)]
      rcases hany with h | h
      · exact absurd (by simpa using h) he
      · exact ih h

theorem find?_map_replace_ne (k : String) (v : Ride) (r : String) (h : r ≠ k) :
    ∀ (l : List (String × Ride)),
      List.find? (fun e => e.1 == r) (l.map (fun e => if e.1 == k then (k, v) else e)) =
        List.find? (fun e => e.1 == r) l := by
  intro l
  induction l with
  | nil => simp
  | cons e t ih =>
    simp only [List.map_cons]
    by_cases hk : e.1 = k
    · rw [if_pos (by simpa using hk)]
      rw [List.find?_cons_of_neg _ (by simpa using (Ne.symm h)),
          List.find?_cons_of_neg _ (by simp [hk]; exact Ne.symm h)]
      exact ih
    · rw [if_neg (by simpa using hk)]
      by_cases hr : e.1 = r
      · rw [List.find?_cons_of_pos _ (by simpa using hr),
            List.find?_cons_of_pos _ (by simpa using hr)]
      · rw [List.find?_cons_of_neg _ (by simpa using hr),
            List.find?_cons_of_neg _ (by simpa using hr)]
        exact ih

theorem regFind?_regSet_self (reg : Registry) (k : String) (v : Ride) :
    regFind? (regSet reg k v) k = some v := by
  unfold regSet
  split
  case isTrue hany =>
    unfold regFind?
    rw [find?_map_replace_self k v reg hany]
    rfl
  case isFalse hany =>
    unfold regFind?
    rw [List.find?_append]
    have hnone : List.find? (fun e => e.1 == k) reg = none := by
      rw [List.find?_eq_none]
      intro x hx hpx
      exact hany (List.any_eq_true.mpr ⟨x, hx, hpx⟩)
    rw [hnone]
    simp

theorem regFind?_regSet_ne (reg : Registry) (k : String) (v : Ride) (r : String) (h : r ≠ k) :
    regFind? (regSet reg k v) r = regFind? reg r := by
  unfold regSet
  split
  case isTrue hany =>
    unfold regFind?
    rw [find?_map_replace_ne k v r h reg]
  case isFalse hany =>
    unfold regFind?
    rw [List.find?_append]
    have hone : List.find? (fun e => e.1 == r) [(k, v)] = none := by
      rw [List.find?_cons_of_neg _ (by simpa using (Ne.symm h)), List.find?_nil]
    rw [hone]
    cases List.find? (fun e => e.1 == r) reg <;> simp

theorem regKeys_regSet_of_mem (reg : Registry) (k : String) (v : Ride)
    (hany : reg.any (fun e => e.1 == k) = true) :
    regKeys (regSet reg k v) = regKeys reg := by
  unfold regSet
  rw [if_pos hany]
  unfold regKeys
  rw [List.map_map]
  apply List.map_congr_left
  intro e _
  by_cases he : e.1 = k
  · rw [Function.comp_apply, if_pos (by simpa using he)]
    exact he.symm
  · rw [Function.comp_apply, if_neg (by simpa using he)]

theorem regKeys_regSet_of_not_mem (reg : Registry) (k : String) (v : Ride)
    (hany : reg.any (fun e => e.1 == k) = false) :
    regKeys (regSet reg k v) = regKeys reg ++ [k] := by
  unfold regSet
  rw [if_neg (by simp [hany])]
  unfold regKeys
  simp

theorem any_of_regFind?_eq_some (reg : Registry) (rid : String) (ride : Ride)
    (h : regFind? reg rid = some ride) :
    reg.any (fun e => e.1 == rid) = true := by
  unfold regFind? at h
  rcases Option.map_eq_some'.mp h with ⟨e, he, _⟩
  have hp := List.find?_some he
  exact List.any_eq_true.mpr ⟨e, List.mem_of_find?_eq_some he, by simpa using hp⟩

theorem any_eq_false_of_regFind?_eq_none (reg : Registry) (rid : String)
    (h : regFind? reg rid = none) :
    reg.any (fun e => e.1 == rid) = false := by
  unfold regFind? at h
  have hf : List.find? (fun e => e.1 == rid) reg = none := Option.map_eq_none'.mp h
  rw [List.any_eq_false]
  exact List.find?_eq_none.mp hf

/-!  Operation sequences over the registry, for lifecycle invariants.  Each
constructor carries the operation's inputs together with its oracle draws. -/

/-- One service call, with its random/clock draws made explicit. -/
inductive Op where
  | book (ride_id : String) (pickup dropoff : Location) (cab_type : CabType) (s : ℝ) (now : ℕ)
  | assign (ride_id : String) (drv : Driver) (now : ℕ) (etaDraw : ℕ)
  | setStatus (ride_id : String) (st : RideStatus) (now : ℕ)
  | cancel (ride_id : String) (reason : String)
  | getOp (ride_id : String)
  | history

/-- The registry after one service call (outputs discarded). -/
noncomputable def applyOp (reg : Registry) (op : Op) : Registry :=
  match op with
  | .book rid p d c s now => (book_ride reg p d c s rid now).2
  | .assign rid drv now eta => (assign_driver reg rid drv now eta).2
  | .setStatus rid st now => (update_ride_status reg rid st now).2
  | .cancel rid reason => (cancel_ride reg rid reason).2
  | .getOp _ => reg
  | .history => reg

/-- The registry after a sequence of service calls. -/
noncomputable def applyAll (reg : Registry) (ops : List Op) : Registry :=
  ops.foldl applyOp reg

/-- Does the operation book a ride under identifier `rid`? -/
def Op.isBookOf (op : Op) (rid : String) : Bool :=
  match op with
  | .book id _ _ _ _ _ => id == rid
  | _ => false

/-- Is the operation a booking at all? -/
def Op.isBook (op : Op) : Bool :=
  match op with
  | .book _ _ _ _ _ _ => true
  | _ => false

/-- Does the operation assign a driver to ride `rid`? -/
def Op.isAssignOf (op : Op) (rid : String) : Bool :=
  match op with
  | .assign id _ _ _ => id == rid
  | _ => false

/-- Does the operation set ride `rid`'s status to `st`? -/
def Op.isSetTo (op : Op) (rid : String) (st : RideStatus) : Bool :=
  match op with
  | .setStatus id st' _ => id == rid && st' == st
  | _ => false

/-- The fields of a ride that no operation after booking ever rewrites. -/
def ImmutableFrame (a b : Ride) : Prop :=
  b.ride_id = a.ride_id ∧ b.cab_type = a.cab_type ∧ b.pickup = a.pickup ∧
  b.dropoff = a.dropoff ∧ b.fare = a.fare ∧ b.created_at = a.created_at ∧
  b.distance_km = a.distance_km ∧ b.duration_minutes = a.duration_minutes

theorem ImmutableFrame.refl (a : Ride) : ImmutableFrame a a :=
  ⟨rfl, rfl, rfl, rfl, rfl, rfl, rfl, rfl⟩

theorem ImmutableFrame.trans {a b c : Ride} (h1 : ImmutableFrame a b)
    (h2 : ImmutableFrame b c) : ImmutableFrame a c := by
  obtain ⟨x1, x2, x3, x4, x5, x6, x7, x8⟩ := h1
  obtain ⟨y1, y2, y3, y4, y5, y6, y7, y8⟩ := h2
  exact ⟨y1.trans x1, y2.trans x2, y3.trans x3, y4.trans x4, y5.trans x5, y6.trans x6,
    y7.trans x7, y8.trans x8⟩

/-- One step of the field-provenance invariant: any operation that is not a
booking under `rid` keeps ride `rid` present, never touches its
booking-fixed fields, and touches driver/accepted_at/eta only when it is an
assignment to `rid`, started_at only when it sets `rid` to IN_PROGRESS, and
completed_at only when it sets `rid` to COMPLETED. -/
theorem applyOp_regFind? (op : Op) (reg : Registry) (rid : String) (ride : Ride)
    (h : regFind? reg rid = some ride) (hb : Op.isBookOf op rid = false) :
    ∃ r1, regFind? (applyOp reg op) rid = some r1 ∧ ImmutableFrame ride r1 ∧
      (Op.isAssignOf op rid = false →
        r1.driver = ride.driver ∧ r1.accepted_at = ride.accepted_at ∧
        r1.eta_minutes = ride.eta_minutes) ∧
      (Op.isSetTo op rid RideStatus.in_progress = false → r1.started_at = ride.started_at) ∧
      (Op.isSetTo op rid RideStatus.completed = false → r1.completed_at = ride.completed_at) := by
  cases op with
  | book id p d c s now =>
      have hne : rid ≠ id := by
        intro hEq
        rw [Op.isBookOf] at hb
        subst hEq
        simp at hb
      refine ⟨ride, ?_, ImmutableFrame.refl ride, fun _ => ⟨rfl, rfl, rfl⟩,
        fun _ => rfl, fun _ => rfl⟩
      have hstep : applyOp reg (Op.book id p d c s now) =
          regSet reg id (book_ride reg p d c s id now).1 := rfl
      rw [hstep, regFind?_regSet_ne reg id _ rid hne]
      exact h
  | assign id drv now eta =>
      by_cases hid : id = rid
      · subst hid
        refine ⟨{ ride with driver := some drv, status := RideStatus.accepted, accepted_at := some now, eta_minutes := randint 3 10 eta }, ?_, ⟨rfl, rfl, rfl, rfl, rfl, rfl, rfl, rfl⟩, ?_, fun _ => rfl, fun _ => rfl⟩
        · simp only [applyOp, assign_driver, h]
          exact regFind?_regSet_self reg id _
        · intro hfalse
          rw [Op.isAssignOf] at hfalse
          simp at hfalse
      · have hne : rid ≠ id := fun hEq => hid hEq.symm
        refine ⟨ride, ?_, ImmutableFrame.refl ride, fun _ => ⟨rfl, rfl, rfl⟩,
          fun _ => rfl, fun _ => rfl⟩
        cases hfind : regFind? reg id with
        | none => simp only [applyOp, assign_driver, hfind]; exact h
        | some x =>
            simp only [applyOp, assign_driver, hfind]
            rw [regFind?_regSet_ne reg id _ rid hne]
            exact h
  | setStatus id st now =>
      by_cases hid : id = rid
      · subst hid
        refine ⟨(if st = RideStatus.in_progress then { ride with status := st, started_at := some now } else if st = RideStatus.completed then { ride with status := st, completed_at := some now } else { ride with status := st }), ?_, ?_, ?_, ?_, ?_⟩
        · simp only [applyOp, update_ride_status, h]
          split_ifs <;> exact regFind?_regSet_self reg id _
        · split_ifs <;> exact ⟨rfl, rfl, rfl, rfl, rfl, rfl, rfl, rfl⟩
        · intro _
          split_ifs <;> exact ⟨rfl, rfl, rfl⟩
        · intro hfalse
          rw [Op.isSetTo] at hfalse
          simp only [beq_self_eq_true, Bool.true_and, beq_eq_false_iff_ne] at hfalse
          rw [if_neg hfalse]
          split_ifs <;> rfl
        · intro hfalse
          rw [Op.isSetTo] at hfalse
          simp only [beq_self_eq_true, Bool.true_and, beq_eq_false_iff_ne] at hfalse
          split_ifs <;> rfl
      · have hne : rid ≠ id := fun hEq => hid hEq.symm
        refine ⟨ride, ?_, ImmutableFrame.refl ride, fun _ => ⟨rfl, rfl, rfl⟩,
          fun _ => rfl, fun _ => rfl⟩
        cases hfind : regFind? reg id with
        | none => simp only [applyOp, update_ride_status, hfind]; exact h
        | some x =>
            simp only [applyOp, update_ride_status, hfind]
            split_ifs <;>
              (rw [regFind?_regSet_ne reg id _ rid hne]; exact h)
  | cancel id reason =>
      by_cases hid : id = rid
      · subst hid
        refine ⟨{ ride with status := RideStatus.cancelled }, ?_, ⟨rfl, rfl, rfl, rfl, rfl, rfl, rfl, rfl⟩, fun _ => ⟨rfl, rfl, rfl⟩, fun _ => rfl, fun _ => rfl⟩
        simp only [applyOp, cancel_ride, h]
        exact regFind?_regSet_self reg id _
      · have hne : rid ≠ id := fun hEq => hid hEq.symm
        refine ⟨ride, ?_, ImmutableFrame.refl ride, fun _ => ⟨rfl, rfl, rfl⟩,
          fun _ => rfl, fun _ => rfl⟩
        cases hfind : regFind? reg id with
        | none => simp only [applyOp, cancel_ride, hfind]; exact h
        | some x =>
            simp only [applyOp, cancel_ride, hfind]
            rw [regFind?_regSet_ne reg id _ rid hne]
            exact h
  | getOp id =>
      exact ⟨ride, h, ImmutableFrame.refl ride, fun _ => ⟨rfl, rfl, rfl⟩,
        fun _ => rfl, fun _ => rfl⟩
  | history =>
      exact ⟨ride, h, ImmutableFrame.refl ride, fun _ => ⟨rfl, rfl, rfl⟩,
        fun _ => rfl, fun _ => rfl⟩

/-- Claim C4 (amended): over every sequence of operations, a stored ride's
booking-computed fields (`distance_km`, `duration_minutes`, together with
`ride_id`, `cab_type`, `pickup`, `dropoff`, `fare`, `created_at`) never
change; `driver`, `accepted_at` and `eta_minutes` change only through
`assign_driver` calls on that ride, `started_at` only through
`update_ride_status(..., IN_PROGRESS)` and `completed_at` only through
`update_ride_status(..., COMPLETED)`.  (The original claim's at-most-once
and monotonicity parts fail, because transitions are unguarded.) -/
theorem ride_field_provenance (ops : List Op) :
    ∀ (reg : Registry) (rid : String) (ride : Ride),
      regFind? reg rid = some ride →
      (∀ op ∈ ops, Op.isBookOf op rid = false) →
      ∃ ride', regFind? (applyAll reg ops) rid = some ride' ∧ ImmutableFrame ride ride' ∧
        ((∀ op ∈ ops, Op.isAssignOf op rid = false) →
          ride'.driver = ride.driver ∧ ride'.accepted_at = ride.accepted_at ∧
          ride'.eta_minutes = ride.eta_minutes) ∧
        ((∀ op ∈ ops, Op.isSetTo op rid RideStatus.in_progress = false) →
          ride'.started_at = ride.started_at) ∧
        ((∀ op ∈ ops, Op.isSetTo op rid RideStatus.completed = false) →
          ride'.completed_at = ride.completed_at) := by
  induction ops with
  | nil =>
      intro reg rid ride h _
      exact ⟨ride, h, ImmutableFrame.refl ride, fun _ => ⟨rfl, rfl, rfl⟩,
        fun _ => rfl, fun _ => rfl⟩
  | cons op t ih =>
      intro reg rid ride h hb
      obtain ⟨r1, h1, hfr1, hA1, hS1, hC1⟩ :=
        applyOp_regFind? op reg rid ride h (hb op (List.mem_cons_self op t))
      obtain ⟨ride', h2, hfr2, hA2, hS2, hC2⟩ :=
        ih (applyOp reg op) rid r1 h1 (fun o ho => hb o (List.mem_cons_of_mem op ho))
      refine ⟨ride', ?_, hfr1.trans hfr2, ?_, ?_, ?_⟩
      · rw [show applyAll reg (op :: t) = applyAll (applyOp reg op) t from rfl]
        exact h2
      · intro hA
        obtain ⟨d1, a1, e1⟩ := hA1 (hA op (List.mem_cons_self op t))
        obtain ⟨d2, a2, e2⟩ := hA2 (fun o ho => hA o (List.mem_cons_of_mem op ho))
        exact ⟨d2.trans d1, a2.trans a1, e2.trans e1⟩
      · intro hS
        exact (hS2 (fun o ho => hS o (List.mem_cons_of_mem op ho))).trans
          (hS1 (hS op (List.mem_cons_self op t)))
      · intro hC
        exact (hC2 (fun o ho => hC o (List.mem_cons_of_mem op ho))).trans
          (hC1 (hC op (List.mem_cons_self op t)))

/-- Every operation keeps an already-present ride id present. -/
theorem applyOp_presence (op : Op) (reg : Registry) (rid : String) (r : Ride)
    (h : regFind? reg rid = some r) :
    ∃ r', regFind? (applyOp reg op) rid = some r' := by
  cases op with
  | book id p d c s now =>
      by_cases hid : id = rid
      · subst hid
        refine ⟨(book_ride reg p d c s id now).1, ?_⟩
        have hstep : applyOp reg (Op.book id p d c s now) =
            regSet reg id (book_ride reg p d c s id now).1 := rfl
        rw [hstep]
        exact regFind?_regSet_self reg id _
      · refine ⟨r, ?_⟩
        have hstep : applyOp reg (Op.book id p d c s now) =
            regSet reg id (book_ride reg p d c s id now).1 := rfl
        rw [hstep, regFind?_regSet_ne reg id _ rid (fun hEq => hid hEq.symm)]
        exact h
  | assign id drv now eta =>
      obtain ⟨r1, h1, _⟩ := applyOp_regFind? (Op.assign id drv now eta) reg rid r h rfl
      exact ⟨r1, h1⟩
  | setStatus id st now =>
      obtain ⟨r1, h1, _⟩ := applyOp_regFind? (Op.setStatus id st now) reg rid r h rfl
      exact ⟨r1, h1⟩
  | cancel id reason =>
      obtain ⟨r1, h1, _⟩ := applyOp_regFind? (Op.cancel id reason) reg rid r h rfl
      exact ⟨r1, h1⟩
  | getOp id => exact ⟨r, h⟩
  | history => exact ⟨r, h⟩

/-- Operations other than booking leave the key list exactly as it is. -/
theorem applyOp_keys_nonbook (op : Op) (reg : Registry) (hnb : Op.isBook op = false) :
    regKeys (applyOp reg op) = regKeys reg := by
  cases op with
  | book id p d c s now => simp [Op.isBook] at hnb
  | assign id drv now eta =>
      cases hfind : regFind? reg id with
      | none => simp only [applyOp, assign_driver, hfind]
      | some x =>
          simp only [applyOp, assign_driver, hfind]
          exact regKeys_regSet_of_mem reg id _ (any_of_regFind?_eq_some reg id x hfind)
  | setStatus id st now =>
      cases hfind : regFind? reg id with
      | none => simp only [applyOp, update_ride_status, hfind]
      | some x =>
          simp only [applyOp, update_ride_status, hfind]
          split_ifs <;>
            exact regKeys_regSet_of_mem reg id _ (any_of_regFind?_eq_some reg id x hfind)
  | cancel id reason =>
      cases hfind : regFind? reg id with
      | none => simp only [applyOp, cancel_ride, hfind]
      | some x =>
          simp only [applyOp, cancel_ride, hfind]
          exact regKeys_regSet_of_mem reg id _ (any_of_regFind?_eq_some reg id x hfind)
  | getOp id => rfl
  | history => rfl

/-!  Concrete fixtures for counterexamples and witnesses. -/

/-- A fixture location. -/
noncomputable def loc0 : Location := ⟨0, 0, "origin"⟩

/-- A fixture ride stored under id "R1" with the given status. -/
noncomputable def baseRide (st : RideStatus) : Ride :=
  { ride_id := "R1", cab_type := CabType.sedan, pickup := loc0, dropoff := loc0,
    status := st, driver := none, fare := none, created_at := 0, accepted_at := none,
    started_at := none, completed_at := none, eta_minutes := 0, distance_km := 0,
    duration_minutes := 0 }

/-- A first fixture driver. -/
noncomputable def drvA : Driver :=
  ⟨"D1", "Amit Kumar", "+91-7000000001", 4.5, 100, "KA10A1000", "Swift", "White", loc0⟩

/-- A second fixture driver. -/
noncomputable def drvB : Driver :=
  ⟨"D2", "Rahul Singh", "+91-7000000002", 4.8, 200, "KA11B2000", "Dzire", "Blue", loc0⟩

/-- C1: the cancellation fee the code actually returns when cancelling a ride
whose pre-transition status is ACCEPTED (or ARRIVING) is 0, not 50: the
source overwrites `ride.status` with CANCELLED before testing it, so the
fee branch is dead.  The spec (§4.6, §9) defines the fee against the
pre-transition status and flags the source's ordering as a bug. -/
theorem cancel_from_accepted_fee_is_zero :
    (baseRide RideStatus.accepted).status = RideStatus.accepted ∧
    (cancel_ride [("R1", baseRide RideStatus.accepted)] "R1" "User cancelled").1 =
      Except.ok { ride_id := "R1", status := "cancelled", reason := "User cancelled", cancellation_fee := 0 } ∧
    (baseRide RideStatus.arriving).status = RideStatus.arriving ∧
    (cancel_ride [("R1", baseRide RideStatus.arriving)] "R1" "User cancelled").1 =
      Except.ok { ride_id := "R1", status := "cancelled", reason := "User cancelled", cancellation_fee := 0 } ∧
    (cancel_ride [("R1", baseRide RideStatus.searching)] "R1" "User cancelled").1 =
      Except.ok { ride_id := "R1", status := "cancelled", reason := "User cancelled", cancellation_fee := 0 } :=
  ⟨rfl, rfl, rfl, rfl, rfl⟩

/-- C2 counterexample: a status update out of the terminal state COMPLETED
does not fail — it succeeds and rewrites the stored status. -/
theorem setStatus_from_completed_succeeds :
    (baseRide RideStatus.completed).status = RideStatus.completed ∧
    (update_ride_status [("R1", baseRide RideStatus.completed)] "R1" RideStatus.searching 7).1 =
      Except.ok { baseRide RideStatus.completed with status := RideStatus.searching } ∧
    regFind? (update_ride_status [("R1", baseRide RideStatus.completed)] "R1" RideStatus.searching 7).2 "R1" =
      some { baseRide RideStatus.completed with status := RideStatus.searching } :=
  ⟨rfl, rfl, rfl⟩

/-- C2 (amended): `update_ride_status` performs no transition validation:
for every stored ride and every requested status it succeeds, setting the
status unconditionally, stamping `started_at` exactly when the new status is
IN_PROGRESS and `completed_at` exactly when it is COMPLETED, and leaving
every other field unchanged; `cancel_ride` likewise succeeds from every
status.  Only an unknown ride id fails (NotFound); no InvalidState failure
exists in the code. -/
theorem update_and_cancel_unvalidated (reg : Registry) (rid : String) (st : RideStatus)
    (now : ℕ) (reason : String) (ride : Ride) (h : regFind? reg rid = some ride) :
    (∃ r2, update_ride_status reg rid st now = (Except.ok r2, regSet reg rid r2) ∧
      r2.status = st ∧
      r2.started_at = (if st = RideStatus.in_progress then some now else ride.started_at) ∧
      r2.completed_at = (if st = RideStatus.completed then some now else ride.completed_at) ∧
      ImmutableFrame ride r2 ∧ r2.driver = ride.driver ∧ r2.accepted_at = ride.accepted_at ∧
      r2.eta_minutes = ride.eta_minutes) ∧
    (∃ res, (cancel_ride reg rid reason).1 = Except.ok res) := by
  constructor
  · refine ⟨(if st = RideStatus.in_progress then { ride with status := st, started_at := some now } else if st = RideStatus.completed then { ride with status := st, completed_at := some now } else { ride with status := st }), ?_, ?_, ?_, ?_, ?_, ?_, ?_, ?_⟩
    · simp only [update_ride_status, h]
    · split_ifs <;> rfl
    · split_ifs <;> rfl
    · split_ifs <;> first | rfl | simp_all
    · split_ifs <;> exact ⟨rfl, rfl, rfl, rfl, rfl, rfl, rfl, rfl⟩
    · split_ifs <;> rfl
    · split_ifs <;> rfl
    · split_ifs <;> rfl
  · refine ⟨{ ride_id := rid, status := "cancelled", reason := reason, cancellation_fee := 0 }, ?_⟩
    simp only [cancel_ride, h]
    rfl

/-- Witness for C2's amended theorem at a concrete registry. -/
theorem update_and_cancel_unvalidated_witness :
    regFind? [("R1", baseRide RideStatus.completed)] "R1" = some (baseRide RideStatus.completed) ∧
    (∃ res, (cancel_ride [("R1", baseRide RideStatus.completed)] "R1" "no").1 = Except.ok res) :=
  ⟨rfl, (update_and_cancel_unvalidated [("R1", baseRide RideStatus.completed)] "R1"
    RideStatus.searching 7 "no" (baseRide RideStatus.completed) rfl).2⟩

/-- C3 counterexample: `assign_driver` called twice on the same ride
succeeds both times; the second call overwrites the first call's driver and
acceptedAt instead of failing. -/
theorem assign_driver_twice_succeeds_twice :
    (baseRide RideStatus.searching).status = RideStatus.searching ∧
    (assign_driver [("R1", baseRide RideStatus.searching)] "R1" drvA 1 0).1 = Except.ok drvA ∧
    (regFind? (assign_driver [("R1", baseRide RideStatus.searching)] "R1" drvA 1 0).2 "R1").map Ride.accepted_at = some (some 1) ∧
    (assign_driver (assign_driver [("R1", baseRide RideStatus.searching)] "R1" drvA 1 0).2 "R1" drvB 2 0).1 = Except.ok drvB ∧
    (regFind? (assign_driver (assign_driver [("R1", baseRide RideStatus.searching)] "R1" drvA 1 0).2 "R1" drvB 2 0).2 "R1").map Ride.driver = some (some drvB) ∧
    (regFind? (assign_driver (assign_driver [("R1", baseRide RideStatus.searching)] "R1" drvA 1 0).2 "R1" drvB 2 0).2 "R1").map Ride.accepted_at = some (some 2) :=
  ⟨rfl, rfl, rfl, rfl, rfl, rfl⟩

/-- C3 (amended): `assign_driver` succeeds for every stored ride regardless
of its current status (not only from SEARCHING), setting the driver, status
ACCEPTED, acceptedAt and an ETA in [3,10]; hence a second call on the same
ride also succeeds, overwriting the first call's driver and acceptedAt.
Only an unknown ride id fails. -/
theorem assign_driver_unguarded (reg : Registry) (rid : String) (drv : Driver) (now eta : ℕ)
    (ride : Ride) (h : regFind? reg rid = some ride) :
    assign_driver reg rid drv now eta =
      (Except.ok drv, regSet reg rid { ride with driver := some drv, status := RideStatus.accepted, accepted_at := some now, eta_minutes := randint 3 10 eta }) ∧
    3 ≤ randint 3 10 eta ∧ randint 3 10 eta ≤ 10 ∧
    (∀ drv2 now2 eta2, (assign_driver (assign_driver reg rid drv now eta).2 rid drv2 now2 eta2).1 = Except.ok drv2) := by
  have hmain : assign_driver reg rid drv now eta =
      (Except.ok drv, regSet reg rid { ride with driver := some drv, status := RideStatus.accepted, accepted_at := some now, eta_minutes := randint 3 10 eta }) := by
    simp only [assign_driver, h]
  refine ⟨hmain, ?_, ?_, ?_⟩
  · unfold randint
    omega
  · unfold randint
    have hlt : eta % 8 < 8 := Nat.mod_lt eta (by omega)
    omega
  · intro drv2 now2 eta2
    have h2 : (assign_driver reg rid drv now eta).2 =
        regSet reg rid { ride with driver := some drv, status := RideStatus.accepted, accepted_at := some now, eta_minutes := randint 3 10 eta } := by
      rw [hmain]
    have hfind := regFind?_regSet_self reg rid
      { ride with driver := some drv, status := RideStatus.accepted, accepted_at := some now, eta_minutes := randint 3 10 eta }
    rw [h2]
    simp only [assign_driver, hfind]

/-- Witness for C3's amended theorem at a concrete registry. -/
theorem assign_driver_unguarded_witness :
    regFind? [("R1", baseRide RideStatus.accepted)] "R1" = some (baseRide RideStatus.accepted) ∧
    (assign_driver [("R1", baseRide RideStatus.accepted)] "R1" drvA 3 5).1 = Except.ok drvA ∧
    3 ≤ randint 3 10 5 ∧ randint 3 10 5 ≤ 10 :=
  ⟨rfl,
   by rw [(assign_driver_unguarded [("R1", baseRide RideStatus.accepted)] "R1" drvA 3 5
        (baseRide RideStatus.accepted) rfl).1],
   (assign_driver_unguarded [("R1", baseRide RideStatus.accepted)] "R1" drvA 3 5
        (baseRide RideStatus.accepted) rfl).2.1,
   (assign_driver_unguarded [("R1", baseRide RideStatus.accepted)] "R1" drvA 3 5
        (baseRide RideStatus.accepted) rfl).2.2.1⟩

/-- C4 counterexample: because transitions are unguarded, `started_at` can
be written twice — first to 5, then overwritten to 2 — so timestamps are
neither set at most once nor monotonically non-decreasing. -/
theorem started_at_overwritten :
    (regFind? (applyAll [("R1", baseRide RideStatus.accepted)]
        [Op.setStatus "R1" RideStatus.in_progress 5]) "R1").map Ride.started_at =
      some (some 5) ∧
    (regFind? (applyAll [("R1", baseRide RideStatus.accepted)]
        [Op.setStatus "R1" RideStatus.in_progress 5, Op.setStatus "R1" RideStatus.in_progress 2]) "R1").map Ride.started_at =
      some (some 2) :=
  ⟨rfl, rfl⟩

/-- The fixture operation sequence used by the C4 witness. -/
def ops0 : List Op :=
  [Op.setStatus "R1" RideStatus.arriving 4, Op.cancel "R1" "bye", Op.getOp "R1"]

/-- Witness for C4's amended theorem at a concrete registry and sequence. -/
theorem ride_field_provenance_witness :
    regFind? [("R1", baseRide RideStatus.accepted)] "R1" = some (baseRide RideStatus.accepted) ∧
    (∀ op ∈ ops0, Op.isBookOf op "R1" = false) ∧
    (∃ ride', regFind? (applyAll [("R1", baseRide RideStatus.accepted)] ops0) "R1" = some ride' ∧
      ImmutableFrame (baseRide RideStatus.accepted) ride' ∧
      ((∀ op ∈ ops0, Op.isAssignOf op "R1" = false) →
        ride'.driver = (baseRide RideStatus.accepted).driver ∧
        ride'.accepted_at = (baseRide RideStatus.accepted).accepted_at ∧
        ride'.eta_minutes = (baseRide RideStatus.accepted).eta_minutes) ∧
      ((∀ op ∈ ops0, Op.isSetTo op "R1" RideStatus.in_progress = false) →
        ride'.started_at = (baseRide RideStatus.accepted).started_at) ∧
      ((∀ op ∈ ops0, Op.isSetTo op "R1" RideStatus.completed = false) →
        ride'.completed_at = (baseRide RideStatus.accepted).completed_at)) :=
  ⟨rfl, by decide,
   ride_field_provenance ops0 [("R1", baseRide RideStatus.accepted)] "R1"
     (baseRide RideStatus.accepted) rfl (by decide)⟩

/-- The fare total exactly as the specification's closed formula (§4.2)
states it: `round((base + d*per_km + ((d/30)*60)*per_min) * s, 2)` with
`d = sqrt((lat_p - lat_d)^2 + (lng_p - lng_d)^2) * 111`. -/
noncomputable def specFareTotal (pickup dropoff : Location) (cab : CabType) (s : ℝ) : ℝ :=
  let d := Real.sqrt ((pickup.latitude - dropoff.latitude) ^ 2 +
    (pickup.longitude - dropoff.longitude) ^ 2) * 111
  round2 ((cab.rates.base_fare + d * cab.rates.per_km + (d / 30 * 60) * cab.rates.per_min) * s)

/-- C5: for every pickup, dropoff, cab class and drawn surge multiplier, the
total computed by `get_fare_estimate` equals the spec's closed formula, and
the Sedan constants are base 80, per_km 15, per_min 2.5. -/
theorem fare_total_matches_spec_formula (pickup dropoff : Location) (cab : CabType) (s : ℝ) :
    (get_fare_estimate pickup dropoff cab s).total = specFareTotal pickup dropoff cab s ∧
    CabType.sedan.rates.base_fare = 80 ∧ CabType.sedan.rates.per_km = 15 ∧
    CabType.sedan.rates.per_min = 2.5 := by
  refine ⟨?_, rfl, rfl, rfl⟩
  show round2 (((cab.rates.base_fare + (pickup.distance_to dropoff) * cab.rates.per_km +
      ((pickup.distance_to dropoff) / 30 * 60) * cab.rates.per_min)) * s) =
    specFareTotal pickup dropoff cab s
  unfold specFareTotal Location.distance_to
  rw [sq_abs, sq_abs]

/-- C7: a ride is in `get_ride_history` exactly when it is a stored ride
whose status is COMPLETED. -/
theorem ride_history_iff_completed (reg : Registry) (r : Ride) :
    r ∈ get_ride_history reg ↔ r ∈ reg.map (·.2) ∧ r.status = RideStatus.completed := by
  unfold get_ride_history
  rw [List.mem_filter]
  constructor
  · rintro ⟨hm, hs⟩
    exact ⟨hm, by simpa using hs⟩
  · rintro ⟨hm, hs⟩
    exact ⟨hm, by simp [hs]⟩

/-- Rounding to one decimal never drops a value below 1 when the input is at
least 1. -/
theorem one_le_round1 (x : ℚ) (hx : 1 ≤ x) : 1 ≤ round1 x := by
  unfold round1
  have hfl : (10 : ℤ) ≤ round (x * 10) := by
    rw [round_eq]
    have h1 : (10 : ℚ) + 1 / 2 ≤ x * 10 + 1 / 2 := by linarith
    have h2 : ⌊(10 : ℚ) + 1 / 2⌋ = 10 := by
      rw [Int.floor_eq_iff]; norm_num
    calc (10 : ℤ) = ⌊(10 : ℚ) + 1 / 2⌋ := h2.symm
      _ ≤ ⌊x * 10 + 1 / 2⌋ := Int.floor_mono h1
  have : (10 : ℚ) ≤ ((round (x * 10) : ℤ) : ℚ) := by exact_mod_cast hfl
  linarith

/-- C6: the surge multiplier depends only on the hour and the uniform draw
(not on the location); during peak hours (8-10 and 17-20 inclusive) it is
the draw from [1.2, 2.0] rounded to one decimal, otherwise the draw from
[1.0, 1.3] rounded to one decimal; and it is always at least 1. -/
theorem surge_multiplier_spec (loc loc' : Location) (hour : ℕ) (t : ℚ)
    (h0 : 0 ≤ t) (h1 : t ≤ 1) :
    get_surge_multiplier loc hour t = get_surge_multiplier loc' hour t ∧
    ((8 ≤ hour ∧ hour ≤ 10) ∨ (17 ≤ hour ∧ hour ≤ 20) →
      get_surge_multiplier loc hour t = round1 (uniform 1.2 2.0 t)) ∧
    (¬((8 ≤ hour ∧ hour ≤ 10) ∨ (17 ≤ hour ∧ hour ≤ 20)) →
      get_surge_multiplier loc hour t = round1 (uniform 1.0 1.3 t)) ∧
    1 ≤ get_surge_multiplier loc hour t := by
  refine ⟨rfl, fun hp => by rw [get_surge_multiplier, if_pos hp],
    fun hp => by rw [get_surge_multiplier, if_neg hp], ?_⟩
  unfold get_surge_multiplier
  split_ifs
  · apply one_le_round1
    unfold uniform
    nlinarith
  · apply one_le_round1
    unfold uniform
    nlinarith

/-- Witness for C6 at hour 9 (peak) and draw 1/2. -/
theorem surge_multiplier_spec_witness :
    (0 : ℚ) ≤ 1 / 2 ∧ (1 / 2 : ℚ) ≤ 1 ∧
    1 ≤ get_surge_multiplier loc0 9 (1 / 2) :=
  ⟨by norm_num, by norm_num,
   (surge_multiplier_spec loc0 loc0 9 (1 / 2) (by norm_num) (by norm_num)).2.2.2⟩

/-- C8: every operation addressed to an unknown ride id fails with NotFound
and returns the registry exactly as it was. -/
theorem missing_ride_not_found (reg : Registry) (rid : String) (reason : String) (drv : Driver)
    (now eta : ℕ) (st : RideStatus) (h : regFind? reg rid = none) :
    get_ride reg rid = Except.error Err.notFound ∧
    assign_driver reg rid drv now eta = (Except.error Err.notFound, reg) ∧
    update_ride_status reg rid st now = (Except.error Err.notFound, reg) ∧
    cancel_ride reg rid reason = (Except.error Err.notFound, reg) := by
  refine ⟨?_, ?_, ?_, ?_⟩
  · simp only [get_ride, h]
  · simp only [assign_driver, h]
  · simp only [update_ride_status, h]
  · simp only [cancel_ride, h]

/-- Witness for C8 on the empty registry. -/
theorem missing_ride_not_found_witness :
    regFind? ([] : Registry) "R9" = none ∧
    get_ride ([] : Registry) "R9" = Except.error Err.notFound ∧
    cancel_ride ([] : Registry) "R9" "oops" = (Except.error Err.notFound, ([] : Registry)) :=
  ⟨rfl,
   (missing_ride_not_found [] "R9" "oops" drvA 0 0 RideStatus.searching rfl).1,
   (missing_ride_not_found [] "R9" "oops" drvA 0 0 RideStatus.searching rfl).2.2.2⟩

/-- C9: cancelling a stored ride changes only its status (to CANCELLED);
every other stored field is untouched, and the cancellation fee and reason
appear only in the returned result (the stored `Ride` has no such fields). -/
theorem cancel_only_changes_status (reg : Registry) (rid : String) (reason : String)
    (ride : Ride) (h : regFind? reg rid = some ride) :
    (cancel_ride reg rid reason).1 =
      Except.ok { ride_id := rid, status := "cancelled", reason := reason, cancellation_fee := 0 } ∧
    ∃ stored, regFind? (cancel_ride reg rid reason).2 rid = some stored ∧
      stored.status = RideStatus.cancelled ∧
      stored.ride_id = ride.ride_id ∧ stored.cab_type = ride.cab_type ∧
      stored.pickup = ride.pickup ∧ stored.dropoff = ride.dropoff ∧
      stored.driver = ride.driver ∧ stored.fare = ride.fare ∧
      stored.created_at = ride.created_at ∧ stored.accepted_at = ride.accepted_at ∧
      stored.started_at = ride.started_at ∧ stored.completed_at = ride.completed_at ∧
      stored.eta_minutes = ride.eta_minutes ∧ stored.distance_km = ride.distance_km ∧
      stored.duration_minutes = ride.duration_minutes := by
  constructor
  · simp only [cancel_ride, h]
    rfl
  · refine ⟨{ ride with status := RideStatus.cancelled }, ?_, rfl, rfl, rfl, rfl, rfl, rfl, rfl, rfl, rfl, rfl, rfl, rfl, rfl, rfl⟩
    simp only [cancel_ride, h]
    exact regFind?_regSet_self reg rid _

/-- Witness for C9 at a concrete ACCEPTED ride. -/
theorem cancel_only_changes_status_witness :
    regFind? [("R1", baseRide RideStatus.accepted)] "R1" = some (baseRide RideStatus.accepted) ∧
    (cancel_ride [("R1", baseRide RideStatus.accepted)] "R1" "late").1 =
      Except.ok { ride_id := "R1", status := "cancelled", reason := "late", cancellation_fee := 0 } :=
  ⟨rfl,
   (cancel_only_changes_status [("R1", baseRide RideStatus.accepted)] "R1" "late"
     (baseRide RideStatus.accepted) rfl).1⟩

/-- C10: booking with a fresh id appends exactly that id to the key list;
no other operation changes the key list at all; and a ride id present in
the registry is still retrievable by `get_ride` after any sequence of
operations. -/
theorem registry_keys_grow_only (reg : Registry) (id : String) (p d : Location) (c : CabType)
    (s : ℝ) (now : ℕ) (op : Op) (rid : String) (ride : Ride) (ops : List Op)
    (hfresh : regFind? reg id = none) (hnb : Op.isBook op = false)
    (h : regFind? reg rid = some ride) :
    regKeys (applyOp reg (Op.book id p d c s now)) = regKeys reg ++ [id] ∧
    regKeys (applyOp reg op) = regKeys reg ∧
    ∃ r', get_ride (applyAll reg ops) rid = Except.ok r' := by
  refine ⟨?_, applyOp_keys_nonbook op reg hnb, ?_⟩
  · have hstep : applyOp reg (Op.book id p d c s now) =
        regSet reg id (book_ride reg p d c s id now).1 := rfl
    rw [hstep]
    exact regKeys_regSet_of_not_mem reg id _ (any_eq_false_of_regFind?_eq_none reg id hfresh)
  · have hind : ∀ (l : List Op) (rg : Registry) (r : Ride), regFind? rg rid = some r →
        ∃ r', regFind? (applyAll rg l) rid = some r' := by
      intro l
      induction l with
      | nil => intro rg r hr; exact ⟨r, hr⟩
      | cons o t ih =>
          intro rg r hr
          obtain ⟨r1, h1⟩ := applyOp_presence o rg rid r hr
          exact ih (applyOp rg o) r1 h1
    obtain ⟨r', hr'⟩ := hind ops reg ride h
    exact ⟨r', by simp only [get_ride, hr']⟩

/-- Witness for C10 at a concrete registry. -/
theorem registry_keys_grow_only_witness :
    regFind? [("R1", baseRide RideStatus.searching)] "R2" = none ∧
    Op.isBook (Op.cancel "R1" "x") = false ∧
    regFind? [("R1", baseRide RideStatus.searching)] "R1" = some (baseRide RideStatus.searching) ∧
    (regKeys (applyOp [("R1", baseRide RideStatus.searching)] (Op.book "R2" loc0 loc0 CabType.sedan 0 0)) =
        regKeys [("R1", baseRide RideStatus.searching)] ++ ["R2"] ∧
      regKeys (applyOp [("R1", baseRide RideStatus.searching)] (Op.cancel "R1" "x")) =
        regKeys [("R1", baseRide RideStatus.searching)] ∧
      ∃ r', get_ride (applyAll [("R1", baseRide RideStatus.searching)] ops0) "R1" = Except.ok r') :=
  ⟨rfl, rfl, rfl,
   registry_keys_grow_only [("R1", baseRide RideStatus.searching)] "R2" loc0 loc0 CabType.sedan
     0 0 (Op.cancel "R1" "x") "R1" (baseRide RideStatus.searching) ops0 rfl rfl rfl⟩
